import Mathlib

/-!
Verification of the latencyReducer signaling server (server/cpp/src/server.cpp,
server/cpp/include/server.h) against its natural-language specification.

The server keeps two `socket_t` slots (`sender`, `viewer`) inside `server_t`.
Each accepted websocket runs `client_worker`: a read loop that prints every
frame and, while `everybody()` is false, hands the frame to
`server_t::log_participants`, which parses it as JSON, reads the `role` field
and stores the socket into the matching slot.  Any exception thrown inside the
loop (malformed JSON, missing or non-string `role`) is caught OUTSIDE the loop,
so it ends that connection's handler.  The server never writes to a stored
socket and never closes one; no message is ever forwarded.
-/

namespace LatencyReducer

/-- Identity of an accepted websocket connection (a `websocket_type` handle). -/
abbrev ConnId := Nat

/-- A JSON value, as produced by `boost::json::parse` on a frame. -/
inductive Json where
  | null : Json
  | bool (b : Bool) : Json
  | num (n : Int) : Json
  | str (s : String) : Json
  | arr (elems : List Json) : Json
  | obj (fields : List (String × Json)) : Json

/-- Field lookup in a JSON object, as `as_object()["key"]` reads an existing
member: the first binding of the key, or `none` when the member is absent
(boost then yields `null`, and the subsequent `as_string()` throws). -/
def lookupField : List (String × Json) → String → Option Json
  | [], _ => none
  | (k, v) :: rest, key => if k = key then some v else lookupField rest key

/-- An inbound text frame after the `boost::json::parse` step: `none` when the
text is not valid JSON (`parse` throws), otherwise the parsed value. -/
abbrev Frame := Option Json

/-- The `role` extraction performed by `server_t::log_participants`
(`json::parse(buf)` then `.as_object()["role"].as_string()`): `none` models a
boost exception (text not JSON, value not an object, or `role` absent or not a
string). -/
def roleOf (f : Frame) : Option String :=
  match f with
  | some (Json.obj fields) =>
    match lookupField fields "role" with
    | some (Json.str s) => some s
    | _ => none
  | _ => none

/-- The two `socket_t` members of `server_t`: `none` is an empty slot
(`socket_t::empty()` true), `some c` a slot holding connection `c`. -/
structure ServerState where
  sender : Option ConnId
  viewer : Option ConnId

/-- `server_t::everybody`: `!(sender.empty() || viewer.empty())`. -/
def everybody (s : ServerState) : Bool :=
  !(s.sender.isNone || s.viewer.isNone)

/-- `server_t::log_participants`: parse the buffer, read `role`; store the
socket in the matching slot (`set_ws`).  `none` models the boost exception
propagating out to `client_worker`.  A role string other than `"sender"` or
`"viewer"` matches neither branch and changes nothing. -/
def log_participants (buf : Frame) (socket : ConnId) (s : ServerState) :
    Option ServerState :=
  match roleOf buf with
  | none => none
  | some role =>
    if role = "sender" then some { s with sender := some socket }
    else if role = "viewer" then some { s with viewer := some socket }
    else some s

/-- Observable process state: the shared `server_t` slots; `terminated`, the
connections whose `client_worker` loop has exited; `closed`, the connections
the server has closed (the source never calls close on a stored socket, so no
transition appends to this list); and `sent`, the messages the server has
written to a client connection (the source never writes to a stored socket, so
no transition appends to this list either). -/
structure SysState where
  server : ServerState
  terminated : List ConnId
  closed : List ConnId
  sent : List (ConnId × Json)

/-- One serialized event: an inbound frame read by a connection's
`client_worker` loop, or the transport closing underneath it (the read throws
and the handler returns). -/
inductive Event where
  | frame (conn : ConnId) (f : Frame) : Event
  | disconnect (conn : ConnId) : Event

/-- One iteration of the `client_worker` read loop, or its catch blocks.  The
frame is printed, then handed to `log_participants` only while `everybody()`
is false; an exception from `log_participants` escapes the loop and ends the
handler (the catch blocks only print and return).  A disconnect likewise ends
the handler without touching the slots. -/
def stepEvent (st : SysState) (e : Event) : SysState :=
  match e with
  | Event.disconnect c => { st with terminated := c :: st.terminated }
  | Event.frame c f =>
    if everybody st.server then st
    else
      match log_participants f c st.server with
      | some s' => { st with server := s' }
      | none => { st with terminated := c :: st.terminated }

/-- Process start: `server_t` default-constructed, both slots empty, nothing
terminated, closed or sent. -/
def initSys : SysState :=
  { server := { sender := none, viewer := none },
    terminated := [], closed := [], sent := [] }

/-- Run a sequence of serialized events from a given state. -/
def runFrom (st : SysState) (evs : List Event) : SysState :=
  evs.foldl stepEvent st

/-- Run a sequence of serialized events from process start. -/
def run (evs : List Event) : SysState :=
  runFrom initSys evs

/-- The two participant roles of the protocol. -/
inductive Role where
  | sender : Role
  | viewer : Role

/-- The wire string of a role. -/
def roleString : Role → String
  | Role.sender => "sender"
  | Role.viewer => "viewer"

/-- The `server_t` slot for a given role. -/
def slot (s : ServerState) : Role → Option ConnId
  | Role.sender => s.sender
  | Role.viewer => s.viewer

/-- A JOIN envelope as the webclient sends it. -/
def joinMsg (r : Role) : Json :=
  Json.obj [("type", Json.str "join"), ("role", Json.str (roleString r))]

/-- An OFFER envelope as the webclient sends it. -/
def offerMsg (sdp : String) : Json :=
  Json.obj [("type", Json.str "offer"), ("sdp", Json.str sdp)]

/-- An ANSWER envelope as the webclient sends it. -/
def answerMsg (sdp : String) : Json :=
  Json.obj [("type", Json.str "answer"), ("sdp", Json.str sdp)]

/-- A CANDIDATE envelope as the webclient sends it. -/
def candidateMsg (payload : Json) : Json :=
  Json.obj [("type", Json.str "candidate"), ("candidate", payload)]

/-- A state with both slots occupied (connections 1 and 2). -/
def pairedSys : SysState :=
  { server := { sender := some 1, viewer := some 2 },
    terminated := [], closed := [], sent := [] }

/-- A state with only the sender slot occupied (connection 1). -/
def senderOnlySys : SysState :=
  { server := { sender := some 1, viewer := none },
    terminated := [], closed := [], sent := [] }

lemma stepEvent_sent (st : SysState) (e : Event) :
    (stepEvent st e).sent = st.sent := by
  cases e with
  | disconnect c => rfl
  | frame c f =>
    simp only [stepEvent]
    by_cases h : everybody st.server = true
    · rw [if_pos h]
    · rw [if_neg h]
      cases log_participants f c st.server <;> rfl

lemma runFrom_sent (evs : List Event) :
    ∀ st : SysState, (runFrom st evs).sent = st.sent := by
  induction evs with
  | nil => intro st; rfl
  | cons e evs ih =>
    intro st
    calc (runFrom st (e :: evs)).sent
        = (runFrom (stepEvent st e) evs).sent := rfl
      _ = (stepEvent st e).sent := ih (stepEvent st e)
      _ = st.sent := stepEvent_sent st e

lemma run_sent (evs : List Event) : (run evs).sent = [] :=
  runFrom_sent evs initSys

lemma stepEvent_frame_of_everybody (st : SysState) (c : ConnId) (f : Frame)
    (h : everybody st.server = true) : stepEvent st (Event.frame c f) = st := by
  simp only [stepEvent]
  rw [if_pos h]

lemma stepEvent_server_of_everybody (st : SysState) (e : Event)
    (h : everybody st.server = true) : (stepEvent st e).server = st.server := by
  cases e with
  | disconnect c => rfl
  | frame c f => rw [stepEvent_frame_of_everybody st c f h]

/-- Scenario A of the spec: SENDER (connection 1) joins and sends an OFFER,
then VIEWER (connection 2) joins. -/
def scenarioA : List Event :=
  [Event.frame 1 (some (joinMsg Role.sender)),
   Event.frame 1 (some (offerMsg "v=0")),
   Event.frame 2 (some (joinMsg Role.viewer))]

/-- Claim C1: the spec says an OFFER from the SENDER is relayed to the VIEWER
(held as a pending offer until the VIEWER joins if needed).  The code never
forwards anything: running Scenario A, nothing is ever sent to any connection,
and the sender's handler is killed by the offer frame (its JSON has no `role`
member, so `as_string()` throws inside `log_participants`). -/
theorem C1_offer_never_relayed :
    (run scenarioA).sent = [] ∧
    (run scenarioA).terminated = [1] ∧
    (run scenarioA).server.viewer = some 2 :=
  ⟨rfl, rfl, rfl⟩

/-- Scenario for C3: VIEWER (connection 2) joins and sends a CANDIDATE before
any SENDER exists; then SENDER (connection 1) joins and sends an OFFER. -/
def scenarioCand : List Event :=
  [Event.frame 2 (some (joinMsg Role.viewer)),
   Event.frame 2 (some (candidateMsg (Json.str "cand1"))),
   Event.frame 1 (some (joinMsg Role.sender)),
   Event.frame 1 (some (offerMsg "v=0"))]

/-- Claim C3: the spec says early CANDIDATE messages are buffered and later
delivered exactly once, in order.  The code has no candidate queue at all:
the early candidate kills the viewer's handler (no `role` member, exception),
nothing is ever delivered to any connection. -/
theorem C3_candidates_never_delivered :
    (run scenarioCand).sent = [] ∧
    (run scenarioCand).terminated = [2] :=
  ⟨rfl, rfl⟩

/-- Scenario for C5: SENDER (connection 1) and VIEWER (connection 2) join,
then the VIEWER sends an ANSWER. -/
def scenarioAnswer : List Event :=
  [Event.frame 1 (some (joinMsg Role.sender)),
   Event.frame 2 (some (joinMsg Role.viewer)),
   Event.frame 2 (some (answerMsg "v=0a"))]

/-- Claim C5: the spec says an ANSWER from the VIEWER is forwarded to the
SENDER's slot when it is occupied.  In the code the sender slot is occupied
yet the answer is simply ignored (`everybody()` is already true, so the frame
is only printed): nothing is ever sent to any connection. -/
theorem C5_answer_never_forwarded :
    (run scenarioAnswer).server.sender = some 1 ∧
    (run scenarioAnswer).sent = [] :=
  ⟨rfl, rfl⟩

/-- Claim C4, counterexample: one unparseable frame (`none`, `json::parse`
throws) from connection 1 while the pair is incomplete terminates that
connection's handler, contradicting the claim that a bad frame never
terminates the connection's handler. -/
theorem C4_counterexample :
    (run [Event.frame 1 none]).terminated = [1] :=
  rfl

/-- Claim C4, amended: once both slots are occupied a malformed frame is
ignored and the handler continues; while the pair is incomplete a malformed
frame leaves the slots unchanged but ends that connection's handler. -/
theorem C4_amended_malformed (st : SysState) (c : ConnId) :
    (everybody st.server = true → stepEvent st (Event.frame c none) = st) ∧
    (everybody st.server = false →
      (stepEvent st (Event.frame c none)).server = st.server ∧
      (stepEvent st (Event.frame c none)).terminated = c :: st.terminated) := by
  constructor
  · intro h
    exact stepEvent_frame_of_everybody st c none h
  · intro h
    simp only [stepEvent]
    rw [if_neg (by simp [h])]
    exact ⟨rfl, rfl⟩

/-- Witness for C4: the amended statement evaluated at the paired state and at
the initial state. -/
theorem C4_witness :
    (everybody pairedSys.server = true ∧
      stepEvent pairedSys (Event.frame 3 none) = pairedSys) ∧
    (everybody initSys.server = false ∧
      (stepEvent initSys (Event.frame 1 none)).terminated = [1]) :=
  ⟨⟨rfl, (C4_amended_malformed pairedSys 3).1 rfl⟩,
   ⟨rfl, ((C4_amended_malformed initSys 1).2 rfl).2⟩⟩

/-- Claim C6, counterexample: connection 1 joins as sender then disconnects;
its slot still holds connection 1, contradicting the claim that the handler
clears its role's slot on disconnect. -/
theorem C6_counterexample :
    (run [Event.frame 1 (some (joinMsg Role.sender)),
          Event.disconnect 1]).server.sender = some 1 :=
  rfl

/-- Claim C6, amended: on disconnect the handler merely returns; no slot is
cleared (the disconnected connection stays registered), nothing is sent, and
only the handler itself ends. -/
theorem C6_amended_disconnect (st : SysState) (c : ConnId) :
    (stepEvent st (Event.disconnect c)).server = st.server ∧
    (stepEvent st (Event.disconnect c)).sent = st.sent ∧
    (stepEvent st (Event.disconnect c)).closed = st.closed ∧
    (stepEvent st (Event.disconnect c)).terminated = c :: st.terminated :=
  ⟨rfl, rfl, rfl, rfl⟩

/-- Trace for C2: connection 1 joins as sender, then connection 2 joins as
sender while the viewer slot is still empty. -/
def rejoinTrace : List Event :=
  [Event.frame 1 (some (joinMsg Role.sender)),
   Event.frame 2 (some (joinMsg Role.sender))]

/-- Trace for C2: both roles join, then connection 3 joins as sender while the
pair is already complete. -/
def pairedRejoinTrace : List Event :=
  [Event.frame 1 (some (joinMsg Role.sender)),
   Event.frame 2 (some (joinMsg Role.viewer)),
   Event.frame 3 (some (joinMsg Role.sender))]

/-- Claim C2, counterexample: after a second sender JOIN the occupant does
change to connection 2, but connection 1 is never closed (the code contains no
close call), contradicting "the old connection is closed"; and once the pair
is complete a second sender JOIN does not evict at all (the slot keeps
connection 1), contradicting eviction on every re-JOIN. -/
theorem C2_counterexample :
    ((run rejoinTrace).server.sender = some 2 ∧
      (run rejoinTrace).closed = []) ∧
    (run pairedRejoinTrace).server.sender = some 1 :=
  ⟨⟨rfl, rfl⟩, rfl⟩

/-- Claim C2, amended: at most one connection occupies a role's slot at any
instant (the slot is a single holder); while the pair is incomplete a second
JOIN for an occupied role replaces the occupant with the new connection, but
the old connection is not closed (the server closes nothing); once both slots
are occupied a JOIN leaves the slots unchanged. -/
theorem C2_amended_replacement (r : Role) (st : SysState) (c a : ConnId)
    (hn : everybody st.server = false) (ha : slot st.server r = some a) :
    slot (stepEvent st (Event.frame c (some (joinMsg r)))).server r = some c ∧
    (stepEvent st (Event.frame c (some (joinMsg r)))).closed = st.closed := by
  cases r with
  | sender =>
    have hlp : log_participants (some (joinMsg Role.sender)) c st.server
        = some { st.server with sender := some c } := rfl
    simp only [stepEvent]
    rw [if_neg (by simp [hn]), hlp]
    exact ⟨rfl, rfl⟩
  | viewer =>
    have hlp : log_participants (some (joinMsg Role.viewer)) c st.server
        = some { st.server with viewer := some c } := rfl
    simp only [stepEvent]
    rw [if_neg (by simp [hn]), hlp]
    exact ⟨rfl, rfl⟩

/-- Witness for C2: the amended replacement evaluated with the sender slot
held by connection 1 and connection 2 re-joining. -/
theorem C2_witness :
    everybody senderOnlySys.server = false ∧
    slot senderOnlySys.server Role.sender = some 1 ∧
    slot (stepEvent senderOnlySys
      (Event.frame 2 (some (joinMsg Role.sender)))).server Role.sender = some 2 :=
  ⟨rfl, rfl, (C2_amended_replacement Role.sender senderOnlySys 2 1 rfl rfl).1⟩

/-- A frame whose `type` is "candidate" but which carries a `role` member. -/
def typedCandidateWithRole : Json :=
  Json.obj [("type", Json.str "candidate"), ("role", Json.str "sender")]

/-- Claim C7, counterexample: a non-JOIN first message is not rejected.  A
candidate-typed frame carrying `role:"sender"` from a fresh connection
registers it in the sender slot (registry state changes), and a non-JOIN frame
without a `role` member (an offer) terminates the handler instead of keeping
the connection open. -/
theorem C7_counterexample :
    (run [Event.frame 1 (some typedCandidateWithRole)]).server.sender = some 1 ∧
    (run [Event.frame 2 (some (offerMsg "v=0"))]).terminated = [2] :=
  ⟨rfl, rfl⟩

/-- Claim C7, amended: the server keeps no per-connection registration state
and never inspects `type`.  While the pair is incomplete, any frame whose JSON
carries the string role "sender" registers that connection in the sender slot
regardless of its type, and a frame without a string `role` member terminates
the handler rather than leaving the connection open for retry. -/
theorem C7_amended_no_handshake (st : SysState) (c : ConnId) (f : Frame)
    (hn : everybody st.server = false) :
    (roleOf f = some "sender" →
      (stepEvent st (Event.frame c f)).server.sender = some c) ∧
    (roleOf f = none →
      (stepEvent st (Event.frame c f)).server = st.server ∧
      (stepEvent st (Event.frame c f)).terminated = c :: st.terminated) := by
  constructor
  · intro hr
    have hlp : log_participants f c st.server
        = some { st.server with sender := some c } := by
      simp [log_participants, hr]
    simp only [stepEvent]
    rw [if_neg (by simp [hn]), hlp]
  · intro hr
    have hlp : log_participants f c st.server = none := by
      simp [log_participants, hr]
    simp only [stepEvent]
    rw [if_neg (by simp [hn]), hlp]
    exact ⟨rfl, rfl⟩

/-- Witness for C7: the amended statement evaluated on the candidate-typed
frame carrying `role:"sender"` at the initial state. -/
theorem C7_witness :
    everybody initSys.server = false ∧
    roleOf (some typedCandidateWithRole) = some "sender" ∧
    (stepEvent initSys
      (Event.frame 1 (some typedCandidateWithRole))).server.sender = some 1 :=
  ⟨rfl, rfl,
   (C7_amended_no_handshake initSys 1 (some typedCandidateWithRole) rfl).1 rfl⟩

/-- A frame with an unknown `type` and no `role` member. -/
def unknownTypeNoRole : Json :=
  Json.obj [("type", Json.str "bogus")]

/-- A frame with an unknown `type` that carries `role:"viewer"`. -/
def unknownTypeWithRole : Json :=
  Json.obj [("type", Json.str "bogus"), ("role", Json.str "viewer")]

/-- Claim C8, counterexample: an unknown-type frame is not merely logged and
ignored.  While the pair is incomplete, an unknown-type frame without a `role`
member terminates the handler (the connection's loop ends), and one carrying
`role:"viewer"` registers the connection in the viewer slot (registry state
changes). -/
theorem C8_counterexample :
    (run [Event.frame 1 (some unknownTypeNoRole)]).terminated = [1] ∧
    (run [Event.frame 1 (some unknownTypeWithRole)]).server.viewer = some 1 :=
  ⟨rfl, rfl⟩

/-- Claim C8, amended: the server never inspects `type` at all.  Once both
slots are occupied every frame is ignored and the connection stays open, and
the server never sends any response over any channel; but while the pair is
incomplete an unknown-type frame is routed through `log_participants` like any
other (registering on a sender/viewer role string, terminating the handler
when no string role is present). -/
theorem C8_amended_type_ignored :
    (∀ (st : SysState) (c : ConnId) (f : Frame),
      everybody st.server = true → stepEvent st (Event.frame c f) = st) ∧
    (∀ evs : List Event, (run evs).sent = []) := by
  constructor
  · intro st c f h
    exact stepEvent_frame_of_everybody st c f h
  · intro evs
    exact run_sent evs

/-- Witness for C8: the amended statement evaluated at the paired state with
an unknown-type frame, and on a one-frame run. -/
theorem C8_witness :
    (everybody pairedSys.server = true ∧
      stepEvent pairedSys (Event.frame 5 (some unknownTypeNoRole)) = pairedSys) ∧
    (run [Event.frame 1 (some unknownTypeNoRole)]).sent = [] :=
  ⟨⟨rfl, C8_amended_type_ignored.1 pairedSys 5 (some unknownTypeNoRole) rfl⟩,
   C8_amended_type_ignored.2 [Event.frame 1 (some unknownTypeNoRole)]⟩

/-- Claim C9: once both slots are occupied (`everybody()` true), the server
never mutates either slot again: any further sequence of events — frames of
any kind, including later JOINs, and disconnects — leaves both slot occupants
unchanged, because `client_worker` stops calling `log_participants`. -/
theorem C9_paired_slots_frozen (evs : List Event) :
    ∀ st : SysState, everybody st.server = true →
      (runFrom st evs).server = st.server := by
  induction evs with
  | nil =>
    intro st h
    rfl
  | cons e evs ih =>
    intro st h
    have hs : (stepEvent st e).server = st.server :=
      stepEvent_server_of_everybody st e h
    calc (runFrom st (e :: evs)).server
        = (runFrom (stepEvent st e) evs).server := rfl
      _ = (stepEvent st e).server := ih (stepEvent st e) (by rw [hs]; exact h)
      _ = st.server := hs

/-- Witness for C9: from the paired state, a later viewer JOIN and a
disconnect leave both slots unchanged. -/
theorem C9_witness :
    everybody pairedSys.server = true ∧
    (runFrom pairedSys
      [Event.frame 3 (some (joinMsg Role.viewer)),
       Event.disconnect 2]).server = pairedSys.server :=
  ⟨rfl,
   C9_paired_slots_frozen
     [Event.frame 3 (some (joinMsg Role.viewer)), Event.disconnect 2]
     pairedSys rfl⟩

/-- Claim C10: while the pair is incomplete, a frame that parses to a JSON
object whose `role` member is a string other than "sender" or "viewer" leaves
both slots unchanged: `log_participants` matches neither branch, so no
registration or eviction occurs. -/
theorem C10_foreign_role_no_effect (st : SysState) (c : ConnId)
    (fields : List (String × Json)) (r : String)
    (hn : everybody st.server = false)
    (hr : lookupField fields "role" = some (Json.str r))
    (hs : ¬ r = "sender") (hv : ¬ r = "viewer") :
    (stepEvent st (Event.frame c (some (Json.obj fields)))).server
      = st.server := by
  have hro : roleOf (some (Json.obj fields)) = some r := by
    simp [roleOf, hr]
  have hlp : log_participants (some (Json.obj fields)) c st.server
      = some st.server := by
    simp [log_participants, hro, hs, hv]
  simp only [stepEvent]
  rw [if_neg (by simp [hn]), hlp]

/-- Witness for C10: a frame with `role:"admin"` at the initial state leaves
both slots empty. -/
theorem C10_witness :
    everybody initSys.server = false ∧
    lookupField [("type", Json.str "join"), ("role", Json.str "admin")] "role"
      = some (Json.str "admin") ∧
    (stepEvent initSys (Event.frame 1 (some (Json.obj
      [("type", Json.str "join"), ("role", Json.str "admin")])))).server
      = initSys.server :=
  ⟨rfl, rfl,
   C10_foreign_role_no_effect initSys 1
     [("type", Json.str "join"), ("role", Json.str "admin")] "admin"
     rfl rfl (by decide) (by decide)⟩

end LatencyReducer
